import Mathlib

/-!
Verification of the Process Supervisor of the hypanel repository
(`src-tauri/src/commands/server.rs`).

Strings are embedded as lists of characters (`Str`); the source's byte-offset
string operations (`find`, slicing, `contains`, `trim`, `split_whitespace`)
are modelled as the corresponding character-list operations, which coincide
with the Rust semantics on the ASCII text these functions handle.
-/

set_option autoImplicit false

namespace Hypanel

abbrev Str := List Char

/-- `strStartsWith pat s` : does `s` start with `pat`?  (Rust slice prefix test.) -/
def strStartsWith : Str → Str → Bool
  | [], _ => true
  | _ :: _, [] => false
  | p :: ps, c :: cs => p = c && strStartsWith ps cs

/-- `findSub pat s` : character index of the first occurrence of `pat` in `s`
(Rust `str::find` on ASCII text). -/
def findSub (pat s : Str) : Option Nat :=
  match s with
  | [] => if strStartsWith pat [] then some 0 else none
  | _ :: rest => if strStartsWith pat s then some 0 else (findSub pat rest).map (· + 1)

/-- `containsSub pat s` : substring containment (Rust `str::contains`). -/
def containsSub (pat s : Str) : Bool := (findSub pat s).isSome

/-- ASCII whitespace, matching Rust `char::is_whitespace` on ASCII input. -/
def isWs (c : Char) : Bool :=
  c = ' ' || c = '\t' || c = '\n' || c = '\r' || c = '\x0b' || c = '\x0c'

/-- Rust `str::trim` (on ASCII whitespace). -/
def trimStr (s : Str) : Str :=
  ((s.dropWhile isWs).reverse.dropWhile isWs).reverse

/-- Rust `s.trim().split_whitespace().next()` : the first whitespace-delimited
token of `s`, if any. -/
def firstToken (s : Str) : Option Str :=
  match s.dropWhile isWs with
  | [] => none
  | t => some (t.takeWhile (fun c => !isWs c))

-- ============================================================================
-- Text Classifier (server.rs lines 675-737 and the stdout reader, lines 300-374)
-- ============================================================================

/-- The loop body of `strip_ansi_codes`: the `Bool` flag is `true` while the
source's inner `while let Some(&next) = chars.peek()` loop is consuming
characters up to and including the first `'m'` after an escape. -/
def stripAnsiAux : Bool → Str → Str
  | _, [] => []
  | false, c :: rest =>
      if c = '\x1b' then stripAnsiAux true rest else c :: stripAnsiAux false rest
  | true, c :: rest =>
      if c = 'm' then stripAnsiAux false rest else stripAnsiAux true rest

/-- `strip_ansi_codes` (server.rs 675-694): at each ESC (0x1B) drop every
character up to and including the first following `'m'`. -/
def strip_ansi_codes (s : Str) : Str := stripAnsiAux false s

structure AuthEvent where
  instance_id : Str
  auth_url : Str
  code : Str
deriving DecidableEq

/-- The pattern `"user_code="` (10 characters). -/
def ucPat : Str := "user_code=".toList

/-- The pattern `"https://"`. -/
def httpsPat : Str := "https://".toList

/-- The pattern `"Enter code:"` (11 characters). -/
def ecPat : Str := "Enter code:".toList

/-- The hard-coded canonical verification URL base of the fallback branch. -/
def canonUrlBase : Str := "https://oauth.accounts.hytale.com/oauth2/device/verify?user_code=".toList

/-- The URL slice taken by `parse_auth_event` once `https://` is found at
index `url_start`: from `url_start` up to (excluding) the next whitespace. -/
def urlFrom (clean_line : Str) (url_start : Nat) : Str :=
  let url_part := clean_line.drop url_start
  url_part.take ((url_part.findIdx? isWs).getD url_part.length)

/-- First branch of `parse_auth_event` (server.rs 703-719): look for a URL
containing `https://` and extract the code after `user_code=` inside it.
Returning `none` corresponds to the source falling through to the
`Enter code:` branch. -/
def parseUrlBranch (instance_id clean_line : Str) : Option AuthEvent :=
  if containsSub ucPat clean_line && containsSub httpsPat clean_line then
    match findSub httpsPat clean_line with
    | some url_start =>
      let auth_url := urlFrom clean_line url_start
      match findSub ucPat auth_url with
      | some code_start =>
          some ⟨instance_id, auth_url, auth_url.drop (code_start + 10)⟩
      | none => none
    | none => none
  else none

/-- Second branch of `parse_auth_event` (server.rs 722-734): `Enter code:`
followed by a whitespace-delimited token; synthesizes the canonical URL. -/
def parseCodeBranch (instance_id clean_line : Str) : Option AuthEvent :=
  if containsSub ecPat clean_line then
    match findSub ecPat clean_line with
    | some code_start =>
      match firstToken (clean_line.drop (code_start + 11)) with
      | some code => some ⟨instance_id, canonUrlBase ++ code, code⟩
      | none => none
    | none => none
  else none

/-- `parse_auth_event` (server.rs 697-737): strip ANSI codes, try the URL
branch, else the `Enter code:` branch. -/
def parse_auth_event (instance_id line : Str) : Option AuthEvent :=
  let clean_line := strip_ansi_codes line
  match parseUrlBranch instance_id clean_line with
  | some e => some e
  | none => parseCodeBranch instance_id clean_line

-- ============================================================================
-- Stdout reader loop: per-line classification (server.rs 300-374)
-- ============================================================================

/-- Events emitted by the stdout reader for one line.  `outputLine` is the
unconditional `server-output` event; the others are the classifier's events. -/
inductive StdoutEvent where
  | outputLine (line : Str)
  | authNeeded
  | needsPersistence
  | authRequired (e : AuthEvent)
  | authSuccess (profile_name : Option Str) (auth_mode : Str)
deriving DecidableEq

def isAuthNeededEv : StdoutEvent → Bool
  | .authNeeded => true
  | _ => false

def isNeedsPersistenceEv : StdoutEvent → Bool
  | .needsPersistence => true
  | _ => false

def isAuthRequiredEv : StdoutEvent → Bool
  | .authRequired _ => true
  | _ => false

def isAuthSuccessEv : StdoutEvent → Bool
  | .authSuccess _ _ => true
  | _ => false

/-- The sentinel of the needs-auth check (server.rs 317). -/
def needsAuthPat : Str := "No server tokens configured".toList

/-- The sentinel of the needs-persistence check (server.rs 326). -/
def persistencePat : Str := "Credentials stored in memory only".toList

/-- The sentinel of the profile-capture check (server.rs 331), 22 characters. -/
def profilePat : Str := "Auto-selected profile:".toList

/-- The sentinel of the auth-success check (server.rs 348). -/
def authSuccessPat : Str := "Authentication successful".toList

/-- The label the auth mode is extracted after (server.rs 350). -/
def modePat : Str := "Mode:".toList

/-- Rust `text.split(pat).nth(1)`: the fragment between the first and second
occurrence of `pat` (to the end of the string when `pat` occurs only once);
`none` when `pat` does not occur. -/
def splitNth1 (pat s : Str) : Option Str :=
  match findSub pat s with
  | none => none
  | some i =>
    let rest := s.drop (i + pat.length)
    match findSub pat rest with
    | none => some rest
    | some j => some (rest.take j)

/-- Auth-mode extraction of the auth-success check (server.rs 350-356):
the trimmed fragment after `Mode:`, defaulting to `"OAUTH_DEVICE"`. -/
def extractAuthMode (text : Str) : Str :=
  if containsSub modePat text then
    match splitNth1 modePat text with
    | some s => trimStr s
    | none => "OAUTH_DEVICE".toList
  else "OAUTH_DEVICE".toList

/-- Profile-name capture (server.rs 331-340): on the raw (unstripped) line,
the text after the 22-character sentinel up to the first `'('`, trimmed;
otherwise the previously captured name is kept. -/
def captureProfile (last_profile_name : Option Str) (text : Str) : Option Str :=
  if containsSub profilePat text then
    match findSub profilePat text with
    | some start =>
      let after := text.drop (start + 22)
      match after.findIdx? (fun c => c = '(') with
      | some paren_pos => some (trimStr (after.take paren_pos))
      | none => last_profile_name
    | none => last_profile_name
  else last_profile_name

/-- One iteration of the stdout reader loop (server.rs 305-365) on a
successfully read line: the emitted events, in order, and the updated
`last_profile_name`.  Every check is an independent `if` in the source. -/
def processStdoutLine (instance_id : Str) (last_profile_name : Option Str)
    (text : Str) : List StdoutEvent × Option Str :=
  let last' := captureProfile last_profile_name text
  ([StdoutEvent.outputLine text]
    ++ (if containsSub needsAuthPat text then [StdoutEvent.authNeeded] else [])
    ++ (if containsSub persistencePat text then [StdoutEvent.needsPersistence] else [])
    ++ (match parse_auth_event instance_id text with
        | some e => [StdoutEvent.authRequired e]
        | none => [])
    ++ (if containsSub authSuccessPat text then
          [StdoutEvent.authSuccess last' (extractAuthMode text)]
        else []),
   last')

/-- Number of events among the four mutually-exclusive-per-the-spec kinds. -/
def countAuthKinds (evs : List StdoutEvent) : Nat :=
  evs.countP (fun e =>
    isAuthNeededEv e || isNeedsPersistenceEv e || isAuthRequiredEv e || isAuthSuccessEv e)

-- ============================================================================
-- Process Registry and supervisor commands (server.rs 14-102, 110-668)
-- ============================================================================

inductive ServerStatus where
  | stopped
  | starting
  | running
  | stopping
deriving DecidableEq

structure ServerStatusInfo where
  status : ServerStatus
  instance_id : Str
  pid : Option Nat
  started_at : Option Str
deriving DecidableEq

/-- `ServerProcess` (server.rs 78-84): one live OS process.  `started_at` is
kept in its emitted rfc3339 form.  `stdin_tx` models the optional
`mpsc::Sender`: `some alive` where `alive` records whether the stdin writer
loop (the receiving end, server.rs 275-294) is still running — `Sender::send`
succeeds exactly when the receiver has not been dropped. -/
structure ServerProcess where
  pid : Nat
  started_at : Str
  stdin_tx : Option Bool
deriving DecidableEq

/-- The Registry: `ServerState.processes` (server.rs 86-88), a map from
instance id to process handle, embedded as an association list. -/
abbrev Registry := List (Str × ServerProcess)

def regLookup (id : Str) : Registry → Option ServerProcess
  | [] => none
  | (k, v) :: rest => if k = id then some v else regLookup id rest

/-- `HashMap::remove` of the given key (keeps everything else). -/
def regRemove (id : Str) : Registry → Registry
  | [] => []
  | (k, v) :: rest => if k = id then regRemove id rest else (k, v) :: regRemove id rest

/-- Number of Registry entries stored under `id`. -/
def countKey (id : Str) : Registry → Nat
  | [] => 0
  | (k, _) :: rest => (if k = id then 1 else 0) + countKey id rest

structure StartResult where
  success : Bool
  pid : Option Nat
  error : Option Str
deriving DecidableEq

structure StopResult where
  success : Bool
  error : Option Str
deriving DecidableEq

/-- The supervisor's broadcast events relevant to lifecycle claims. -/
inductive SupEvent where
  | statusChange (instance_id : Str) (status : ServerStatus)
      (pid : Option Nat) (started_at : Option Str)
  | serverExit (instance_id : Str)
deriving DecidableEq

def alreadyRunningMsg : Str := "Server is already running".toList
def notRunningMsg : Str := "Server is not running".toList

/-- `<instance_path>/Server/HytaleServer.jar` (server.rs 144; separator fixed
to `/`, immaterial to the claims). -/
def serverJarPath (instance_path : Str) : Str :=
  instance_path ++ "/Server/HytaleServer.jar".toList

/-- `<instance_path>/Assets.zip` (server.rs 145). -/
def assetsZipPath (instance_path : Str) : Str :=
  instance_path ++ "/Assets.zip".toList

/-- `start_server` (server.rs 110-463), with the environment made explicit:
`jarExists`/`assetsExists` are the filesystem existence checks and `spawn`
is the outcome of `cmd.spawn()` (`.ok pid` or `.error reason`).
Returns the `StartResult`, the Registry after the call, and the
`server-status-change` events emitted by the call itself (command-line
assembly and the four spawned threads are outside this function's result;
the exit monitor is modelled separately below). -/
def start_server (reg : Registry) (instance_id instance_path : Str)
    (jarExists assetsExists : Bool) (spawn : Except Str Nat) (started_at : Str) :
    StartResult × Registry × List SupEvent :=
  if (regLookup instance_id reg).isSome then
    (⟨false, none, some alreadyRunningMsg⟩, reg, [])
  else
    let startingEv := SupEvent.statusChange instance_id .starting none none
    let stoppedEv := SupEvent.statusChange instance_id .stopped none none
    if !jarExists then
      (⟨false, none, some ("Server JAR not found: ".toList ++ serverJarPath instance_path)⟩,
       reg, [startingEv, stoppedEv])
    else if !assetsExists then
      (⟨false, none, some ("Assets.zip not found: ".toList ++ assetsZipPath instance_path)⟩,
       reg, [startingEv, stoppedEv])
    else
      match spawn with
      | .error e =>
        (⟨false, none, some ("Failed to start server: ".toList ++ e)⟩,
         reg, [startingEv, stoppedEv])
      | .ok pid =>
        (⟨true, some pid, none⟩,
         (instance_id, ⟨pid, started_at, some true⟩) :: reg,
         [startingEv, SupEvent.statusChange instance_id .running (some pid) (some started_at)])

/-- `stop_server` (server.rs 467-589) as one sequential call: lookup (fail
with "Server is not running" when absent, emitting nothing), otherwise emit
Stopping, terminate the process (graceful, then force-kill at timeout —
either way the call proceeds), remove the entry and emit Stopped.  The
interleaving with the exit monitor is modelled separately below. -/
def stop_server (reg : Registry) (instance_id : Str) :
    StopResult × Registry × List SupEvent :=
  match regLookup instance_id reg with
  | none => (⟨false, some notRunningMsg⟩, reg, [])
  | some _ =>
      (⟨true, none⟩, regRemove instance_id reg,
       [SupEvent.statusChange instance_id .stopping none none,
        SupEvent.statusChange instance_id .stopped none none])

/-- `get_server_status` (server.rs 593-616). -/
def get_server_status (reg : Registry) (instance_id : Str) : ServerStatusInfo :=
  match regLookup instance_id reg with
  | some process => ⟨.running, instance_id, some process.pid, some process.started_at⟩
  | none => ⟨.stopped, instance_id, none, none⟩

set_option linter.unusedVariables false in
/-- `send_server_command` (server.rs 638-668).  The Rust function returns
`Result<bool, ()>` and every path yields `Ok`: `Ok(false)` when the id is
absent, when `stdin_tx` is `None`, or when `tx.send` fails because the stdin
writer loop has terminated; `Ok(true)` when the text was enqueued. -/
def send_server_command (reg : Registry) (instance_id command : Str) :
    Except Unit Bool :=
  match regLookup instance_id reg with
  | some process =>
      match process.stdin_tx with
      | some receiverAlive =>
          if receiverAlive then Except.ok true else Except.ok false
      | none => Except.ok false
  | none => Except.ok false

-- ============================================================================
-- Exit monitor / stop interleaving (server.rs 407-456 and 467-589)
-- ============================================================================

/-- Joint state of one instance's exit-monitor loop, an in-flight
`stop_server` call, the Registry, and the OS process.
`procRunning` is the OS process's liveness, observed by `try_wait` from both
loops (`Ok(None)` while `true`, `Ok(Some _)` once `false` — `Child` caches
the exit status, so both observers see the exit).  `waitErr` injects the
`Err` result of `try_wait`.  `timedOut` is whether `stop_server`'s 10-second
deadline has passed.  `stopPC`: 0 = `stop_server` not yet past its Registry
lookup, 1 = in its wait loop, 2 = returned. -/
structure Sys where
  reg : Registry
  procRunning : Bool
  waitErr : Bool
  timedOut : Bool
  monitorDone : Bool
  stopPC : Nat
  stopRes : Option StopResult
  events : List SupEvent
deriving DecidableEq

/-- One iteration of the exit-monitor loop (server.rs 409-453): break when
the id is gone from the Registry; on an observed exit (`Ok(Some _)`) or a
wait error (`Err`) remove the entry, emit Stopped and `server-exit`, and
break; on `Ok(None)` do nothing. -/
def exitMonitorTick (instance_id : Str) (s : Sys) : Sys :=
  if s.monitorDone then s
  else
    match regLookup instance_id s.reg with
    | none => { s with monitorDone := true }
    | some _ =>
      if s.waitErr || !s.procRunning then
        { s with
            reg := regRemove instance_id s.reg,
            events := s.events
              ++ [SupEvent.statusChange instance_id .stopped none none,
                  SupEvent.serverExit instance_id],
            monitorDone := true }
      else s

/-- The first phase of `stop_server` (server.rs 475-521): Registry lookup
(failing with "Server is not running" when absent), emission of Stopping,
and the graceful-termination signal (whose effect is the separate
`procExit` environment step). -/
def stopBeginStep (instance_id : Str) (s : Sys) : Sys :=
  if s.stopPC = 0 then
    match regLookup instance_id s.reg with
    | none => { s with stopPC := 2, stopRes := some ⟨false, some notRunningMsg⟩ }
    | some _ =>
        { s with
            stopPC := 1,
            events := s.events
              ++ [SupEvent.statusChange instance_id .stopping none none] }
  else s

/-- The second phase of `stop_server` (server.rs 527-588): the wait loop
breaks on an observed exit, a wait error, or the timeout (force-kill); then
the entry is removed (a no-op when already gone), Stopped is emitted and the
call returns success. -/
def stopFinishStep (instance_id : Str) (s : Sys) : Sys :=
  if s.stopPC = 1 && (s.waitErr || !s.procRunning || s.timedOut) then
    { s with
        reg := regRemove instance_id s.reg,
        events := s.events ++ [SupEvent.statusChange instance_id .stopped none none],
        stopPC := 2,
        stopRes := some ⟨true, none⟩ }
  else s

/-- Scheduler actions: a monitor tick, either phase of the `stop_server`
call, or the OS process terminating. -/
inductive SupAct where
  | monitorTick
  | stopBegin
  | stopFinish
  | procExit
deriving DecidableEq

def supStep (instance_id : Str) (a : SupAct) (s : Sys) : Sys :=
  match a with
  | .monitorTick => exitMonitorTick instance_id s
  | .stopBegin => stopBeginStep instance_id s
  | .stopFinish => stopFinishStep instance_id s
  | .procExit => { s with procRunning := false }

def runSchedule (instance_id : Str) : List SupAct → Sys → Sys
  | [], s => s
  | a :: rest, s => runSchedule instance_id rest (supStep instance_id a s)

/-- Is this event `status changed → Stopped` for the given instance? -/
def isStoppedEv (instance_id : Str) : SupEvent → Bool
  | .statusChange i .stopped _ _ => decide (i = instance_id)
  | _ => false

/-- A concrete one-instance initial state: the instance is registered and
its process is running, the monitor loop is live and no stop is in flight. -/
def initSys (instance_id : Str) : Sys :=
  { reg := [(instance_id, ⟨100, "2025-01-01T00:00:00Z".toList, some true⟩)],
    procRunning := true,
    waitErr := false,
    timedOut := false,
    monitorDone := false,
    stopPC := 0,
    stopRes := none,
    events := [] }

/-- The concrete profile-capture line of the auth flow scenario. -/
def profileLine : Str := "\x1b[32mAuto-selected profile: Natxo (abc-123)\x1b[0m".toList

/-- The concrete auth-success line of the auth flow scenario. -/
def successLine : Str := "Authentication successful! Mode: OAUTH_DEVICE".toList

-- ============================================================================
-- Helper lemmas
-- ============================================================================

theorem countKey_eq_zero_of_lookup_none (id : Str) :
    ∀ reg : Registry, regLookup id reg = none → countKey id reg = 0 := by
  intro reg
  induction reg with
  | nil => intro _; rfl
  | cons kv rest ih =>
    intro h
    obtain ⟨k, v⟩ := kv
    by_cases hk : k = id
    · simp [regLookup, hk] at h
    · simp [regLookup, hk] at h
      simp [countKey, hk, ih h]

theorem stripAnsiAux_true_eq (s : Str) :
    stripAnsiAux true s
      = stripAnsiAux false ((s.dropWhile (fun x => x != 'm')).drop 1) := by
  induction s with
  | nil => rfl
  | cons c rest ih =>
    by_cases h : c = 'm'
    · simp [stripAnsiAux, h, List.dropWhile]
    · have hb : (c != 'm') = true := by simp [bne_iff_ne, h]
      simp [stripAnsiAux, h, List.dropWhile, hb, ih]

-- ============================================================================
-- Claim theorems
-- ============================================================================

/-- C10: `strip_ansi_codes` removes, at each occurrence of the escape
character 0x1B, every following character up to and including the first
subsequent `'m'` (no `'['` is required after the escape); if no `'m'`
follows, the whole remainder is discarded (the `dropWhile`/`drop` form
yields `[]` there); characters outside such runs are preserved in order. -/
theorem strip_ansi_codes_characterization (s : Str) (c : Char) :
    strip_ansi_codes ([] : Str) = []
  ∧ (c ≠ '\x1b' → strip_ansi_codes (c :: s) = c :: strip_ansi_codes s)
  ∧ strip_ansi_codes ('\x1b' :: s)
      = strip_ansi_codes ((s.dropWhile (fun x => x != 'm')).drop 1) := by
  refine ⟨rfl, fun h => ?_, ?_⟩
  · simp [strip_ansi_codes, stripAnsiAux, h]
  · simp [strip_ansi_codes, stripAnsiAux, stripAnsiAux_true_eq]

/-- C10 witness: the characterization applied at `c = 'a'` and a concrete
tail that begins with an escape sequence. -/
theorem strip_ansi_codes_characterization_witness :
    ('a' ≠ '\x1b')
  ∧ strip_ansi_codes ('a' :: "\x1b[0mz".toList)
      = 'a' :: strip_ansi_codes "\x1b[0mz".toList :=
  ⟨by decide, (strip_ansi_codes_characterization "\x1b[0mz".toList 'a').2.1 (by decide)⟩

/-- C8: `get_server_status` returns Stopped with no pid and no start time for
every id absent from the Registry, and Running with the handle's pid and
recorded start timestamp for every id present. -/
theorem get_server_status_cases (reg : Registry) (id : Str) :
    (regLookup id reg = none →
       get_server_status reg id = ⟨.stopped, id, none, none⟩)
  ∧ (∀ p : ServerProcess, regLookup id reg = some p →
       get_server_status reg id = ⟨.running, id, some p.pid, some p.started_at⟩) := by
  refine ⟨fun h => ?_, fun p h => ?_⟩ <;> simp [get_server_status, h]

/-- C8 witness: a concrete Registry with one entry, queried at an absent and
at a present id. -/
theorem get_server_status_cases_witness :
    get_server_status [("a".toList, ⟨7, "t0".toList, some true⟩)] "b".toList
      = ⟨.stopped, "b".toList, none, none⟩
  ∧ get_server_status [("a".toList, ⟨7, "t0".toList, some true⟩)] "a".toList
      = ⟨.running, "a".toList, some 7, some "t0".toList⟩ :=
  ⟨(get_server_status_cases [("a".toList, ⟨7, "t0".toList, some true⟩)] "b".toList).1
      (by decide),
   (get_server_status_cases [("a".toList, ⟨7, "t0".toList, some true⟩)] "a".toList).2
      ⟨7, "t0".toList, some true⟩ (by decide)⟩

/-- C9: `send_server_command` never returns the transport-level error of its
`Result` type: every path returns `Ok`, and it returns `Ok true` exactly when
the id is present, the handle's stdin send endpoint exists, and the stdin
writer loop (the receiving end) is still alive so the enqueue succeeds. -/
theorem send_server_command_never_errors (reg : Registry) (id command : Str) :
    (∃ b : Bool, send_server_command reg id command = Except.ok b)
  ∧ (send_server_command reg id command = Except.ok true ↔
       ∃ p : ServerProcess, regLookup id reg = some p ∧ p.stdin_tx = some true) := by
  rcases h : regLookup id reg with _ | p
  · exact ⟨⟨false, by simp [send_server_command, h]⟩, by simp [send_server_command, h]⟩
  · rcases h2 : p.stdin_tx with _ | alive
    · exact ⟨⟨false, by simp [send_server_command, h, h2]⟩,
             by simp [send_server_command, h, h2]⟩
    · cases alive
      · exact ⟨⟨false, by simp [send_server_command, h, h2]⟩,
               by simp [send_server_command, h, h2]⟩
      · exact ⟨⟨true, by simp [send_server_command, h, h2]⟩,
               by simp [send_server_command, h, h2]⟩

/-- C9 witness: a Registry with a live stdin channel; the enqueue succeeds. -/
theorem send_server_command_never_errors_witness :
    send_server_command [("a".toList, ⟨7, "t0".toList, some true⟩)] "a".toList
        "stop".toList
      = Except.ok true :=
  ((send_server_command_never_errors [("a".toList, ⟨7, "t0".toList, some true⟩)]
      "a".toList "stop".toList).2).mpr
    ⟨⟨7, "t0".toList, some true⟩, by decide, rfl⟩

/-- C5: `stop_server` on an id absent from the Registry fails with
"Server is not running", emits no status event at all, and leaves the
Registry unchanged. -/
theorem stop_server_not_running (reg : Registry) (id : Str)
    (h : regLookup id reg = none) :
    stop_server reg id = (⟨false, some notRunningMsg⟩, reg, []) := by
  simp [stop_server, h]

/-- C5 witness: stopping an id on an empty Registry. -/
theorem stop_server_not_running_witness :
    stop_server [] "a".toList = (⟨false, some notRunningMsg⟩, [], []) :=
  stop_server_not_running [] "a".toList (by decide)

/-- C4: every failing `start_server` call leaves the Registry exactly as it
was: an id already present fails with "Server is already running" (and a
start immediately followed by a second start with the same id leaves exactly
one Registry entry for it), a missing launch artifact fails with the
JAR/Assets not-found error, and a spawn error fails with
"Failed to start server: reason"; in none of these cases is the Registry
mutated. -/
theorem start_server_failure_cases (reg : Registry) (id path t e : Str)
    (jar assets : Bool) (spawn : Except Str Nat) (pid : Nat) :
    ((regLookup id reg).isSome = true →
       start_server reg id path jar assets spawn t
         = (⟨false, none, some alreadyRunningMsg⟩, reg, []))
  ∧ (regLookup id reg = none →
       start_server reg id path false assets spawn t
         = (⟨false, none,
             some ("Server JAR not found: ".toList ++ serverJarPath path)⟩,
            reg,
            [SupEvent.statusChange id .starting none none,
             SupEvent.statusChange id .stopped none none]))
  ∧ (regLookup id reg = none →
       start_server reg id path true false spawn t
         = (⟨false, none,
             some ("Assets.zip not found: ".toList ++ assetsZipPath path)⟩,
            reg,
            [SupEvent.statusChange id .starting none none,
             SupEvent.statusChange id .stopped none none]))
  ∧ (regLookup id reg = none →
       start_server reg id path true true (Except.error e) t
         = (⟨false, none, some ("Failed to start server: ".toList ++ e)⟩,
            reg,
            [SupEvent.statusChange id .starting none none,
             SupEvent.statusChange id .stopped none none]))
  ∧ (regLookup id reg = none →
       (start_server reg id path true true (Except.ok pid) t).1.success = true
         ∧ countKey id (start_server reg id path true true (Except.ok pid) t).2.1 = 1
         ∧ start_server (start_server reg id path true true (Except.ok pid) t).2.1
             id path jar assets spawn t
           = (⟨false, none, some alreadyRunningMsg⟩,
              (start_server reg id path true true (Except.ok pid) t).2.1, [])) := by
  refine ⟨fun h => ?_, fun h => ?_, fun h => ?_, fun h => ?_, fun h => ?_⟩
  · simp [start_server, h]
  · simp [start_server, h]
  · simp [start_server, h]
  · simp [start_server, h]
  · refine ⟨by simp [start_server, h], ?_, ?_⟩
    · simp [start_server, h, countKey, countKey_eq_zero_of_lookup_none id reg h]
    · simp [start_server, h, regLookup]

/-- C4 witness: the five conjuncts applied at concrete Registries — one with
`"a"` present, an empty one for the artifact/spawn failures, and the
start-then-start scenario on the empty Registry. -/
theorem start_server_failure_cases_witness :
    start_server [("a".toList, ⟨7, "t0".toList, some true⟩)] "a".toList "p".toList
        true true (Except.ok 9) "t1".toList
      = (⟨false, none, some alreadyRunningMsg⟩,
         [("a".toList, ⟨7, "t0".toList, some true⟩)], [])
  ∧ start_server [] "a".toList "p".toList false true (Except.ok 9) "t1".toList
      = (⟨false, none,
          some ("Server JAR not found: ".toList ++ serverJarPath "p".toList)⟩,
         [],
         [SupEvent.statusChange "a".toList .starting none none,
          SupEvent.statusChange "a".toList .stopped none none])
  ∧ start_server [] "a".toList "p".toList true false (Except.ok 9) "t1".toList
      = (⟨false, none,
          some ("Assets.zip not found: ".toList ++ assetsZipPath "p".toList)⟩,
         [],
         [SupEvent.statusChange "a".toList .starting none none,
          SupEvent.statusChange "a".toList .stopped none none])
  ∧ start_server [] "a".toList "p".toList true true (Except.error "boom".toList)
        "t1".toList
      = (⟨false, none, some ("Failed to start server: ".toList ++ "boom".toList)⟩,
         [],
         [SupEvent.statusChange "a".toList .starting none none,
          SupEvent.statusChange "a".toList .stopped none none])
  ∧ ((start_server [] "a".toList "p".toList true true (Except.ok 9) "t1".toList).1.success
        = true
      ∧ countKey "a".toList
          (start_server [] "a".toList "p".toList true true (Except.ok 9) "t1".toList).2.1
        = 1
      ∧ start_server
          (start_server [] "a".toList "p".toList true true (Except.ok 9) "t1".toList).2.1
          "a".toList "p".toList true true (Except.ok 9) "t1".toList
        = (⟨false, none, some alreadyRunningMsg⟩,
           (start_server [] "a".toList "p".toList true true (Except.ok 9) "t1".toList).2.1,
           [])) :=
  ⟨(start_server_failure_cases [("a".toList, ⟨7, "t0".toList, some true⟩)] "a".toList
      "p".toList "t1".toList "e".toList true true (Except.ok 9) 9).1 (by decide),
   (start_server_failure_cases [] "a".toList "p".toList "t1".toList "e".toList
      true true (Except.ok 9) 9).2.1 (by decide),
   (start_server_failure_cases [] "a".toList "p".toList "t1".toList "e".toList
      true false (Except.ok 9) 9).2.2.1 (by decide),
   (start_server_failure_cases [] "a".toList "p".toList "t1".toList "boom".toList
      true true (Except.ok 9) 9).2.2.2.1 (by decide),
   (start_server_failure_cases [] "a".toList "p".toList "t1".toList "e".toList
      true true (Except.ok 9) 9).2.2.2.2 (by decide)⟩

/-- C3 counterexample: a wait error (`try_wait` returning `Err`) inside the
exit-monitor loop does NOT leave the instance in the Registry: from the
initial state with a running process and an injected wait error, one monitor
tick removes the Registry entry and emits Stopped and process-exited, even
though the OS process is still running. -/
theorem monitor_wait_error_removes_registry_entry :
    regLookup "a".toList (initSys "a".toList).reg
      = some ⟨100, "2025-01-01T00:00:00Z".toList, some true⟩
  ∧ ({ initSys "a".toList with waitErr := true } : Sys).procRunning = true
  ∧ regLookup "a".toList
      (exitMonitorTick "a".toList { initSys "a".toList with waitErr := true }).reg
      = none
  ∧ (exitMonitorTick "a".toList { initSys "a".toList with waitErr := true }).events
      = [SupEvent.statusChange "a".toList .stopped none none,
         SupEvent.serverExit "a".toList] := by decide

/-- C3 amended: a wait failure inside the exit-monitor loop terminates that
loop and does not itself kill the OS process, but it is treated as a
confirmed exit: the monitor removes the instance from the Registry and emits
the Stopped and process-exited events (`procRunning` and every other field
outside `reg`, `events`, `monitorDone` are unchanged by the record update). -/
theorem exitMonitorTick_wait_error_cleanup (id : Str) (s : Sys)
    (hmon : s.monitorDone = false) (herr : s.waitErr = true)
    (hreg : (regLookup id s.reg).isSome = true) :
    exitMonitorTick id s
      = { s with
            reg := regRemove id s.reg,
            events := s.events
              ++ [SupEvent.statusChange id .stopped none none,
                  SupEvent.serverExit id],
            monitorDone := true } := by
  rcases h : regLookup id s.reg with _ | p
  · rw [h] at hreg
    simp at hreg
  · simp [exitMonitorTick, hmon, herr, h]

/-- C3 amended witness: the cleanup equation applied at the concrete
wait-error state. -/
theorem exitMonitorTick_wait_error_cleanup_witness :
    exitMonitorTick "a".toList { initSys "a".toList with waitErr := true }
      = { ({ initSys "a".toList with waitErr := true } : Sys) with
            reg := regRemove "a".toList (initSys "a".toList).reg,
            events := [SupEvent.statusChange "a".toList .stopped none none,
                       SupEvent.serverExit "a".toList],
            monitorDone := true } :=
  exitMonitorTick_wait_error_cleanup "a".toList
    { initSys "a".toList with waitErr := true } (by decide) (by decide) (by decide)

/-- C1: there IS an interleaving of the exit-monitor loop and an in-flight
`stop_server` call in which both emit "status changed → Stopped" for the same
process lifetime: stop begins (emits Stopping, signals the process), the
process exits, the monitor's next tick observes the exit while the id is
still registered (removes it, emits Stopped and process-exited), and then
stop's wait loop also observes the exit and stop unconditionally emits a
second Stopped after its (now no-op) removal. -/
theorem stop_and_monitor_double_emit_stopped :
    (runSchedule "a".toList [.stopBegin, .procExit, .monitorTick, .stopFinish]
        (initSys "a".toList)).events
      = [SupEvent.statusChange "a".toList .stopping none none,
         SupEvent.statusChange "a".toList .stopped none none,
         SupEvent.serverExit "a".toList,
         SupEvent.statusChange "a".toList .stopped none none]
  ∧ ((runSchedule "a".toList [.stopBegin, .procExit, .monitorTick, .stopFinish]
        (initSys "a".toList)).events.countP (isStoppedEv "a".toList) = 2)
  ∧ (runSchedule "a".toList [.stopBegin, .procExit, .monitorTick, .stopFinish]
        (initSys "a".toList)).stopRes = some ⟨true, none⟩ := by decide

/-- C2 counterexample: a single stdout line containing both the needs-auth
sentinel and the auth-success sentinel triggers two of the four event kinds
at once, so "at most one of the four kinds per line" fails. -/
theorem classifier_two_kinds_on_one_line :
    countAuthKinds
      (processStdoutLine "i".toList none
        "No server tokens configured Authentication successful".toList).1 = 2 := by
  decide

/-- C2 amended: the four classifier checks are independent (non-exclusive):
for every stdout line, auth-needed fires iff the line contains its sentinel,
needs-persistence iff it contains its sentinel, the auth-required challenge
iff `parse_auth_event` matches, and auth-success iff the line contains the
auth-success sentinel — so one line may trigger several kinds; profile
capture is independent of all four and always updates as `captureProfile`. -/
theorem processStdoutLine_event_characterization (id : Str) (last : Option Str)
    (text : Str) :
    ((processStdoutLine id last text).1.any isAuthNeededEv
        = containsSub needsAuthPat text)
  ∧ ((processStdoutLine id last text).1.any isNeedsPersistenceEv
        = containsSub persistencePat text)
  ∧ ((processStdoutLine id last text).1.any isAuthRequiredEv
        = (parse_auth_event id text).isSome)
  ∧ ((processStdoutLine id last text).1.any isAuthSuccessEv
        = containsSub authSuccessPat text)
  ∧ ((processStdoutLine id last text).2 = captureProfile last text) := by
  cases h1 : containsSub needsAuthPat text <;>
  cases h2 : containsSub persistencePat text <;>
  rcases h3 : parse_auth_event id text with _ | ev <;>
  cases h4 : containsSub authSuccessPat text <;>
  simp [processStdoutLine, h1, h2, h3, h4, isAuthNeededEv, isNeedsPersistenceEv,
        isAuthRequiredEv, isAuthSuccessEv]

/-- C2 amended witness: the characterization instantiated at the
double-sentinel line; both the needs-auth and the auth-success kinds fire. -/
theorem processStdoutLine_event_characterization_witness :
    (processStdoutLine "i".toList none
        "No server tokens configured Authentication successful".toList).1.any
        isAuthNeededEv
      = containsSub needsAuthPat
          "No server tokens configured Authentication successful".toList
  ∧ (processStdoutLine "i".toList none
        "No server tokens configured Authentication successful".toList).1.any
        isAuthSuccessEv
      = containsSub authSuccessPat
          "No server tokens configured Authentication successful".toList :=
  ⟨(processStdoutLine_event_characterization "i".toList none
      "No server tokens configured Authentication successful".toList).1,
   (processStdoutLine_event_characterization "i".toList none
      "No server tokens configured Authentication successful".toList).2.2.2.1⟩

/-- C7: the line `ESC[32mAuto-selected profile: Natxo (abc-123)ESC[0m`
captures the profile name "Natxo", and the subsequent line
`Authentication successful! Mode: OAUTH_DEVICE` yields an auth-success event
carrying profile name "Natxo" and mode "OAUTH_DEVICE"; without a `Mode:`
label the mode defaults to "OAUTH_DEVICE". -/
theorem auth_profile_capture_flow :
    (processStdoutLine "inst".toList none profileLine).2 = some "Natxo".toList
  ∧ (processStdoutLine "inst".toList
        ((processStdoutLine "inst".toList none profileLine).2) successLine).1
      = [StdoutEvent.outputLine successLine,
         StdoutEvent.authSuccess (some "Natxo".toList) "OAUTH_DEVICE".toList]
  ∧ extractAuthMode "Authentication successful!".toList = "OAUTH_DEVICE".toList := by
  decide

/-- C6 counterexample: the line `user_code=X https://a.com` contains both
`https://` and `user_code=` (and has no ANSI escapes), yet the classifier
emits no auth-required event, because `user_code=` does not occur inside the
substring from `https://` up to the next whitespace. -/
theorem parse_auth_event_user_code_outside_url :
    containsSub ucPat "user_code=X https://a.com".toList = true
  ∧ containsSub httpsPat "user_code=X https://a.com".toList = true
  ∧ strip_ansi_codes "user_code=X https://a.com".toList
      = "user_code=X https://a.com".toList
  ∧ parse_auth_event "i".toList "user_code=X https://a.com".toList = none := by
  decide

/-- C6 amended: for every line that, after ANSI stripping, contains
`user_code=` and whose first URL — the substring from the FIRST `https://`
up to the next whitespace — itself contains `user_code=`, the classifier
emits an auth-required event whose url is that substring and whose code is
the part of it after `user_code=` (running to the URL's end, i.e. to the
next whitespace of the line); for every line on which the URL branch yields
nothing but which contains `Enter code:` followed by a whitespace-delimited
token, the token is taken as the code and the canonical verification URL is
synthesized from it. -/
theorem parse_auth_event_amended (id line : Str) :
    (∀ i j,
       containsSub ucPat (strip_ansi_codes line) = true →
       findSub httpsPat (strip_ansi_codes line) = some i →
       findSub ucPat (urlFrom (strip_ansi_codes line) i) = some j →
       parse_auth_event id line
         = some ⟨id, urlFrom (strip_ansi_codes line) i,
                 (urlFrom (strip_ansi_codes line) i).drop (j + 10)⟩)
  ∧ (∀ k code,
       parseUrlBranch id (strip_ansi_codes line) = none →
       findSub ecPat (strip_ansi_codes line) = some k →
       firstToken ((strip_ansi_codes line).drop (k + 11)) = some code →
       parse_auth_event id line = some ⟨id, canonUrlBase ++ code, code⟩) := by
  constructor
  · intro i j h1 h2 h3
    have hhttps : containsSub httpsPat (strip_ansi_codes line) = true := by
      simp [containsSub, h2]
    simp [parse_auth_event, parseUrlBranch, h1, hhttps, h2, h3]
  · intro k code h0 h1 h2
    have hec : containsSub ecPat (strip_ansi_codes line) = true := by
      simp [containsSub, h1]
    simp [parse_auth_event, h0, parseCodeBranch, hec, h1, h2]

/-- C6 amended witness: the URL branch at the spec's example line (url index
10, `user_code=` at offset 40 inside the URL) and the fallback branch at
`Enter code: AB12CD`. -/
theorem parse_auth_event_amended_witness :
    parse_auth_event "i".toList
        "Or visit: https://oauth.example.com/device/verify?user_code=MNkHJhwD".toList
      = some ⟨"i".toList,
          urlFrom (strip_ansi_codes
            "Or visit: https://oauth.example.com/device/verify?user_code=MNkHJhwD".toList) 10,
          (urlFrom (strip_ansi_codes
            "Or visit: https://oauth.example.com/device/verify?user_code=MNkHJhwD".toList) 10).drop
            (40 + 10)⟩
  ∧ parse_auth_event "i".toList "Enter code: AB12CD".toList
      = some ⟨"i".toList, canonUrlBase ++ "AB12CD".toList, "AB12CD".toList⟩ :=
  ⟨(parse_auth_event_amended "i".toList
      "Or visit: https://oauth.example.com/device/verify?user_code=MNkHJhwD".toList).1
      10 40 (by decide) (by decide) (by decide),
   (parse_auth_event_amended "i".toList "Enter code: AB12CD".toList).2
      0 "AB12CD".toList (by decide) (by decide) (by decide)⟩

end Hypanel

